import Mathlib

/-!
A shallow embedding of the hierarchical data-import pipeline of the
f1-podium-picks backend (`backend/app/core/data_import.py` together with the
repository helpers it calls in `backend/app/db/crud.py`).

Upstream fetch results are passed in as explicit parameters (the fetcher
normalises every transport failure into an empty list, so an import routine
only ever sees a plain list of records).  The relational store is a `DB`
record of row lists; every `create_*` appends one row and assigns the next
surrogate id of its table.  Fallible Python code (the `int(...)` / `float(...)`
coercions, which raise `ValueError` on unparseable input) is embedded in
`Except String`.
-/

deriving instance DecidableEq for Except

namespace F1Import

/-! ## Python-style scalar parsing -/

/-- Numeric value of a nonempty list of decimal digit characters. -/
def digitsVal (cs : List Char) : Nat :=
  cs.foldl (fun a c => a * 10 + (c.toNat - '0'.toNat)) 0

/-- Strip leading and trailing whitespace (the stripping `int(...)` and
`float(...)` perform before parsing). -/
def pyTrim (cs : List Char) : List Char :=
  ((cs.dropWhile Char.isWhitespace).reverse.dropWhile Char.isWhitespace).reverse

/-- Split a character list on the dash separator, as `str.split("-")` does:
`splitDash "a-b".toList = [['a'], ['b']]`, with empty groups preserved. -/
def splitDash (cs : List Char) : List (List Char) :=
  cs.foldr
    (fun c acc =>
      if c = '-' then [] :: acc
      else
        match acc with
        | [] => [[c]]
        | g :: gs => (c :: g) :: gs)
    [[]]

/-- Core of Python `int(...)` on a trimmed character list: an optional sign
followed by a nonempty run of decimal digits.  Returns `none` when the text is
not an integer literal (Python raises `ValueError` there). -/
def pyIntCore : List Char → Option Int
  | [] => none
  | '-' :: rest =>
    if rest ≠ [] ∧ rest.all Char.isDigit then some (-(digitsVal rest : Int)) else none
  | '+' :: rest =>
    if rest ≠ [] ∧ rest.all Char.isDigit then some (digitsVal rest : Int) else none
  | cs =>
    if cs.all Char.isDigit then some (digitsVal cs : Int) else none

/-- Python `int(s)`: surrounding whitespace is stripped, then the text must be
a signed decimal literal; otherwise a `ValueError` is raised. -/
def pyInt (s : String) : Except String Int :=
  match pyIntCore (pyTrim s.toList) with
  | some n => .ok n
  | none => .error ("invalid literal for int with base 10: " ++ s)

/-- Mantissa of a float literal: `digits [. digits*]` or `. digits+`. -/
def isFloatMantissa (cs : List Char) : Bool :=
  let p := cs.span Char.isDigit
  match p.2 with
  | [] => !p.1.isEmpty
  | '.' :: rest =>
    let q := rest.span Char.isDigit
    q.2.isEmpty && (!p.1.isEmpty || !q.1.isEmpty)
  | _ => false

/-- A signed nonempty run of decimal digits (the exponent part of a float). -/
def isSignedDigits : List Char → Bool
  | [] => false
  | '-' :: rest => !rest.isEmpty && rest.all Char.isDigit
  | '+' :: rest => !rest.isEmpty && rest.all Char.isDigit
  | cs => cs.all Char.isDigit

/-- Unsigned float body: mantissa with an optional `e`/`E` exponent, or one of
the special words `inf`, `infinity`, `nan` (case-insensitive). -/
def isUnsignedFloat (cs : List Char) : Bool :=
  let low := cs.map Char.toLower
  if low = "inf".toList || low = "infinity".toList || low = "nan".toList then
    true
  else
    let p := cs.span (fun c => c ≠ 'e' ∧ c ≠ 'E')
    match p.2 with
    | [] => isFloatMantissa p.1
    | _ :: exp => isFloatMantissa p.1 && isSignedDigits exp

/-- Whether Python `float(s)` accepts `s`: optional surrounding whitespace and
sign around an unsigned float body. -/
def isFloatLit (s : String) : Bool :=
  match pyTrim s.toList with
  | '-' :: rest => isUnsignedFloat rest
  | '+' :: rest => isUnsignedFloat rest
  | cs => isUnsignedFloat cs

/-- Result of a successful Python `float(...)` coercion.  No import routine
ever inspects the numeric value again (it is only stored), so the value is
represented by the accepted literal itself. -/
structure PyFloat where
  lit : String
deriving DecidableEq, Repr

/-- The source pattern `float(location.get("lat", 0)) if location.get("lat")
else None`: an absent or empty (falsy) field yields `None`; a present,
non-empty field is coerced with `float`, which raises on unparseable text. -/
def coerceOptFloat (v : Option String) : Except String (Option PyFloat) :=
  match v with
  | none => .ok none
  | some s =>
    if s = "" then .ok none
    else if isFloatLit s then .ok (some ⟨s⟩)
    else .error ("could not convert string to float: " ++ s)

/-- The source pattern `int(driver_data["permanentNumber"]) if
"permanentNumber" in driver_data else None`: the key being absent yields
`None`, a present value goes through `int(...)` (which may raise). -/
def coercePermanentNumber (v : Option String) : Except String (Option Int) :=
  match v with
  | none => .ok none
  | some s =>
    match pyInt s with
    | .ok n => .ok (some n)
    | .error e => .error e

/-! ## Date normalizer (`parse_date`) -/

/-- A calendar date as produced by `datetime.strptime(s, "%Y-%m-%d").date()`. -/
structure PDate where
  year : Nat
  month : Nat
  day : Nat
deriving DecidableEq, Repr

/-- Gregorian leap-year rule used by `datetime` for day-range validation. -/
def isLeap (y : Nat) : Bool :=
  y % 4 = 0 && (y % 100 ≠ 0 || y % 400 = 0)

/-- Number of days in month `m` of year `y`. -/
def daysInMonth (y m : Nat) : Nat :=
  if m = 2 then (if isLeap y then 29 else 28)
  else if m = 4 ∨ m = 6 ∨ m = 9 ∨ m = 11 then 30
  else 31

/-- `strptime(s, "%Y-%m-%d")`: three dash-separated digit groups (year up to
four digits, month and day up to two), validated as a real calendar date.
Returns `none` on any mismatch. -/
def parseDateStr (s : String) : Option PDate :=
  match splitDash s.toList with
  | [yc, mc, dc] =>
    if yc ≠ [] ∧ yc.all Char.isDigit ∧ yc.length ≤ 4 ∧
        mc ≠ [] ∧ mc.all Char.isDigit ∧ mc.length ≤ 2 ∧
        dc ≠ [] ∧ dc.all Char.isDigit ∧ dc.length ≤ 2 then
      let y := digitsVal yc
      let m := digitsVal mc
      let d := digitsVal dc
      if 1 ≤ m ∧ m ≤ 12 ∧ 1 ≤ d ∧ d ≤ daysInMonth y m then
        some ⟨y, m, d⟩
      else none
    else none
  | _ => none

/-- `parse_date`: a falsy input (`None` or the empty string) is absent; a
malformed date is logged and degrades to absent; this function never raises. -/
def parse_date (s : Option String) : Option PDate :=
  match s with
  | none => none
  | some str => if str = "" then none else parseDateStr str

/-! ## Upstream records

Each structure mirrors the dictionary shape the import routines index into.
A field of type `Option _` models a key the code reads with `.get` (absence
allowed); a plain field models a key read with `[...]` (required by every
premise of well-shaped upstream envelopes shared by the claims). -/

structure SeasonData where
  season : String
  url : Option String
deriving DecidableEq, Repr

structure Location where
  locality : Option String
  country : Option String
  lat : Option String
  long : Option String
deriving DecidableEq, Repr

structure CircuitData where
  circuitId : String
  circuitName : String
  location : Option Location
  url : Option String
deriving DecidableEq, Repr

structure DriverData where
  driverId : String
  givenName : String
  familyName : String
  code : Option String
  nationality : Option String
  permanentNumber : Option String
  dateOfBirth : Option String
  url : Option String
deriving DecidableEq, Repr

structure ConstructorData where
  constructorId : String
  name : String
  nationality : Option String
  url : Option String
deriving DecidableEq, Repr

/-- A nested sub-session dictionary (`Qualifying`, `Sprint`, `FirstPractice`,
`SecondPractice`, `ThirdPractice`) with its optional `date`/`time` keys. -/
structure SubSession where
  date : Option String
  time : Option String
deriving DecidableEq, Repr

structure RaceData where
  round : String
  raceName : String
  circuit : CircuitData
  date : Option String
  time : Option String
  url : Option String
  qualifying : Option SubSession
  sprint : Option SubSession
  firstPractice : Option SubSession
  secondPractice : Option SubSession
  thirdPractice : Option SubSession
deriving DecidableEq, Repr

structure TeamDriverData where
  driverId : String
  constructorId : String
deriving DecidableEq, Repr

/-- The upstream API, as seen through the fetcher: per-season race lists and
per-round qualifying/sprint result lists (whose entries the import code never
reads — only emptiness is tested), plus the season-scoped standings pairing
list.  A fixed `Upstream` value models re-running against the same upstream
data, matching the fetcher returning the same payloads. -/
structure Upstream where
  races : Int → List RaceData
  qualifying_results : Int → Int → List Unit
  sprint_results : Int → Int → List Unit
  team_drivers : Int → List TeamDriverData

/-! ## Persisted rows and the store -/

structure SeasonRow where
  id : Nat
  year : Int
  wikipedia : Option String
deriving DecidableEq, Repr

structure CircuitRow where
  id : Nat
  reference : String
  name : String
  locality : Option String
  country : Option String
  country_code : Option String
  latitude : Option PyFloat
  longitude : Option PyFloat
  altitude : Option PyFloat
  wikipedia : Option String
deriving DecidableEq, Repr

structure DriverRow where
  id : Nat
  reference : String
  forename : String
  surname : String
  abbreviation : Option String
  nationality : Option String
  country_code : Option String
  permanent_car_number : Option Int
  date_of_birth : Option PDate
  wikipedia : Option String
deriving DecidableEq, Repr

structure TeamRow where
  id : Nat
  reference : String
  name : String
  nationality : Option String
  country_code : Option String
  constructor_id : String
  wikipedia : Option String
deriving DecidableEq, Repr

structure RoundRow where
  id : Nat
  reference : String
  name : String
  round_number : Int
  date : Option PDate
  time : Option String
  wikipedia : Option String
  season_id : Nat
  circuit_id : Nat
deriving DecidableEq, Repr

/-- A Session row.  Sessions are only ever inserted by the import pipeline and
never looked up (they have no natural key and their surrogate id is never read
by any import routine), so the surrogate id is omitted from the embedding. -/
structure SessionRow where
  session_type : String
  date : Option PDate
  time : Option String
  status : String
  round_id : Nat
deriving DecidableEq, Repr

structure TeamDriverRow where
  id : Nat
  team_id : Nat
  driver_id : Nat
  season_year : Int
deriving DecidableEq, Repr

/-- The relational store: one list per table (insertion-ordered, as a
sequential scan with `.first()` observes it) plus the next surrogate id of
each table that hands out ids. -/
structure DB where
  seasons : List SeasonRow
  circuits : List CircuitRow
  drivers : List DriverRow
  teams : List TeamRow
  rounds : List RoundRow
  sessions : List SessionRow
  teamDrivers : List TeamDriverRow
  nextSeasonId : Nat
  nextCircuitId : Nat
  nextDriverId : Nat
  nextTeamId : Nat
  nextRoundId : Nat
  nextTeamDriverId : Nat
deriving DecidableEq, Repr

def emptyDB : DB :=
  { seasons := [], circuits := [], drivers := [], teams := [], rounds := []
    sessions := [], teamDrivers := []
    nextSeasonId := 0, nextCircuitId := 0, nextDriverId := 0, nextTeamId := 0
    nextRoundId := 0, nextTeamDriverId := 0 }

/-! ## Create-request records (the `schemas.*Create` payloads) -/

structure SeasonCreate where
  year : Int
  wikipedia : Option String
deriving DecidableEq, Repr

structure CircuitCreate where
  reference : String
  name : String
  locality : Option String
  country : Option String
  country_code : Option String
  latitude : Option PyFloat
  longitude : Option PyFloat
  altitude : Option PyFloat
  wikipedia : Option String
deriving DecidableEq, Repr

structure DriverCreate where
  reference : String
  forename : String
  surname : String
  abbreviation : Option String
  nationality : Option String
  country_code : Option String
  permanent_car_number : Option Int
  date_of_birth : Option PDate
  wikipedia : Option String
deriving DecidableEq, Repr

structure TeamCreate where
  reference : String
  name : String
  nationality : Option String
  country_code : Option String
  constructor_id : String
  wikipedia : Option String
deriving DecidableEq, Repr

structure RoundCreate where
  reference : String
  name : String
  round_number : Int
  date : Option PDate
  time : Option String
  wikipedia : Option String
  season_id : Nat
  circuit_id : Nat
deriving DecidableEq, Repr

structure SessionCreate where
  session_type : String
  date : Option PDate
  time : Option String
  status : String
  round_id : Nat
deriving DecidableEq, Repr

structure TeamDriverCreate where
  team_id : Nat
  driver_id : Nat
  season_year : Int
deriving DecidableEq, Repr

/-! ## Repository (`crud.py`): natural-key lookups and atomic inserts -/

def get_season_by_year (db : DB) (year : Int) : Option SeasonRow :=
  db.seasons.find? (fun r => r.year == year)

def get_circuit_by_reference (db : DB) (reference : String) : Option CircuitRow :=
  db.circuits.find? (fun r => r.reference == reference)

def get_driver_by_reference (db : DB) (reference : String) : Option DriverRow :=
  db.drivers.find? (fun r => r.reference == reference)

def get_team_by_reference (db : DB) (reference : String) : Option TeamRow :=
  db.teams.find? (fun r => r.reference == reference)

def get_round_by_reference (db : DB) (reference : String) : Option RoundRow :=
  db.rounds.find? (fun r => r.reference == reference)

/-- The existence query of `import_team_drivers_for_season`: first TeamDriver
row matching team id, driver id and season year. -/
def get_team_driver (db : DB) (team_id driver_id : Nat) (season_year : Int) :
    Option TeamDriverRow :=
  db.teamDrivers.find?
    (fun r => r.team_id == team_id && r.driver_id == driver_id && r.season_year == season_year)

def create_season (db : DB) (c : SeasonCreate) : SeasonRow × DB :=
  let row : SeasonRow := { id := db.nextSeasonId, year := c.year, wikipedia := c.wikipedia }
  (row, { db with seasons := db.seasons ++ [row], nextSeasonId := db.nextSeasonId + 1 })

def create_circuit (db : DB) (c : CircuitCreate) : CircuitRow × DB :=
  let row : CircuitRow :=
    { id := db.nextCircuitId, reference := c.reference, name := c.name
      locality := c.locality, country := c.country, country_code := c.country_code
      latitude := c.latitude, longitude := c.longitude, altitude := c.altitude
      wikipedia := c.wikipedia }
  (row, { db with circuits := db.circuits ++ [row], nextCircuitId := db.nextCircuitId + 1 })

def create_driver (db : DB) (c : DriverCreate) : DriverRow × DB :=
  let row : DriverRow :=
    { id := db.nextDriverId, reference := c.reference, forename := c.forename
      surname := c.surname, abbreviation := c.abbreviation, nationality := c.nationality
      country_code := c.country_code, permanent_car_number := c.permanent_car_number
      date_of_birth := c.date_of_birth, wikipedia := c.wikipedia }
  (row, { db with drivers := db.drivers ++ [row], nextDriverId := db.nextDriverId + 1 })

def create_team (db : DB) (c : TeamCreate) : TeamRow × DB :=
  let row : TeamRow :=
    { id := db.nextTeamId, reference := c.reference, name := c.name
      nationality := c.nationality, country_code := c.country_code
      constructor_id := c.constructor_id, wikipedia := c.wikipedia }
  (row, { db with teams := db.teams ++ [row], nextTeamId := db.nextTeamId + 1 })

def create_round (db : DB) (c : RoundCreate) : RoundRow × DB :=
  let row : RoundRow :=
    { id := db.nextRoundId, reference := c.reference, name := c.name
      round_number := c.round_number, date := c.date, time := c.time
      wikipedia := c.wikipedia, season_id := c.season_id, circuit_id := c.circuit_id }
  (row, { db with rounds := db.rounds ++ [row], nextRoundId := db.nextRoundId + 1 })

def create_session (db : DB) (c : SessionCreate) : SessionRow × DB :=
  let row : SessionRow :=
    { session_type := c.session_type, date := c.date, time := c.time
      status := c.status, round_id := c.round_id }
  (row, { db with sessions := db.sessions ++ [row] })

def create_team_driver (db : DB) (c : TeamDriverCreate) : TeamDriverRow × DB :=
  let row : TeamDriverRow :=
    { id := db.nextTeamDriverId, team_id := c.team_id, driver_id := c.driver_id
      season_year := c.season_year }
  (row,
    { db with
      teamDrivers := db.teamDrivers ++ [row]
      nextTeamDriverId := db.nextTeamDriverId + 1 })

/-! ## Import routines (`data_import.py`) -/

/-- Loop body of `import_seasons`: parse the year (raising on junk), skip
out-of-range years, skip years already present, otherwise create. -/
def seasonsLoop (start_year end_year : Int) :
    List SeasonData → DB → Except String (Nat × DB)
  | [], db => .ok (0, db)
  | sd :: rest, db =>
    match pyInt sd.season with
    | .error e => .error e
    | .ok season_year =>
      if season_year < start_year ∨ season_year > end_year then
        seasonsLoop start_year end_year rest db
      else
        match get_season_by_year db season_year with
        | some _ => seasonsLoop start_year end_year rest db
        | none =>
          let p := create_season db { year := season_year, wikipedia := sd.url }
          match seasonsLoop start_year end_year rest p.2 with
          | .error e => .error e
          | .ok q => .ok (q.1 + 1, q.2)

/-- `import_seasons(db, start_year, end_year)` over the fetched seasons list.
(The Python default of the current calendar year for a falsy `end_year` is a
wall-clock concern; the scope is passed explicitly here.) -/
def import_seasons (seasons_data : List SeasonData) (start_year end_year : Int)
    (db : DB) : Except String (Nat × DB) :=
  seasonsLoop start_year end_year seasons_data db

/-- Loop body of `import_circuits`: skip an existing reference (before any
field coercion), otherwise coerce latitude then longitude and create. -/
def circuitsLoop : List CircuitData → DB → Except String (Nat × DB)
  | [], db => .ok (0, db)
  | cd :: rest, db =>
    match get_circuit_by_reference db cd.circuitId with
    | some _ => circuitsLoop rest db
    | none =>
      match coerceOptFloat (cd.location >>= Location.lat) with
      | .error e => .error e
      | .ok lat =>
        match coerceOptFloat (cd.location >>= Location.long) with
        | .error e => .error e
        | .ok long =>
          let p := create_circuit db
            { reference := cd.circuitId, name := cd.circuitName
              locality := cd.location >>= Location.locality
              country := cd.location >>= Location.country
              country_code := none, latitude := lat, longitude := long
              altitude := none, wikipedia := cd.url }
          match circuitsLoop rest p.2 with
          | .error e => .error e
          | .ok q => .ok (q.1 + 1, q.2)

/-- `import_circuits(db)` over the fetched circuits list. -/
def import_circuits (circuits_data : List CircuitData) (db : DB) :
    Except String (Nat × DB) :=
  circuitsLoop circuits_data db

/-- Loop body of `import_drivers`: skip an existing reference, otherwise
coerce the optional permanent number (raising on junk), normalize the birth
date (never raising) and create. -/
def driversLoop : List DriverData → DB → Except String (Nat × DB)
  | [], db => .ok (0, db)
  | dd :: rest, db =>
    match get_driver_by_reference db dd.driverId with
    | some _ => driversLoop rest db
    | none =>
      match coercePermanentNumber dd.permanentNumber with
      | .error e => .error e
      | .ok num =>
        let p := create_driver db
          { reference := dd.driverId, forename := dd.givenName
            surname := dd.familyName, abbreviation := dd.code
            nationality := dd.nationality, country_code := none
            permanent_car_number := num
            date_of_birth := parse_date dd.dateOfBirth, wikipedia := dd.url }
        match driversLoop rest p.2 with
        | .error e => .error e
        | .ok q => .ok (q.1 + 1, q.2)

/-- `import_drivers(db)` over the fetched drivers list. -/
def import_drivers (drivers_data : List DriverData) (db : DB) :
    Except String (Nat × DB) :=
  driversLoop drivers_data db

/-- Loop body of `import_teams`: skip an existing reference, otherwise create
(the constructor reference doubles as the stored `constructor_id`). -/
def teamsLoop : List ConstructorData → DB → Except String (Nat × DB)
  | [], db => .ok (0, db)
  | td :: rest, db =>
    match get_team_by_reference db td.constructorId with
    | some _ => teamsLoop rest db
    | none =>
      let p := create_team db
        { reference := td.constructorId, name := td.name
          nationality := td.nationality, country_code := none
          constructor_id := td.constructorId, wikipedia := td.url }
      match teamsLoop rest p.2 with
      | .error e => .error e
      | .ok q => .ok (q.1 + 1, q.2)

/-- `import_teams(db)` over the fetched constructors list. -/
def import_teams (constructors_data : List ConstructorData) (db : DB) :
    Except String (Nat × DB) :=
  teamsLoop constructors_data db

/-- The linear scan of `import_sessions_for_round`: the first race whose
`int(race["round"])` equals `round_num`, raising if the round field of a scanned entry
field is not an integer literal before a match is found. -/
def findRace : List RaceData → Int → Except String (Option RaceData)
  | [], _ => .ok none
  | r :: rest, round_num =>
    match pyInt r.round with
    | .error e => .error e
    | .ok k => if k = round_num then .ok (some r) else findRace rest round_num

/-- `import_sessions_for_round(db, season_year, round_num, round_id)`: always
creates a race session for the matched race entry; a qualifying (resp. sprint)
session when the corresponding results fetch is non-empty, with the race
date/time as fallback; and, for seasons from 2000 on, practice 1 and 2
unconditionally plus practice 3 when there is no sprint data and the payload
has a `ThirdPractice` key.  Returns 0 creating nothing when no entry matches
the round number. -/
def import_sessions_for_round (up : Upstream) (season_year round_num : Int)
    (round_id : Nat) (db : DB) : Except String (Nat × DB) :=
  match findRace (up.races season_year) round_num with
  | .error e => .error e
  | .ok none => .ok (0, db)
  | .ok (some race_info) =>
    let db := (create_session db
      { session_type := "race", date := parse_date race_info.date
        time := race_info.time, status := "completed", round_id := round_id }).2
    let count := 1
    let quali_data := up.qualifying_results season_year round_num
    let step1 : Nat × DB :=
      if quali_data.isEmpty then (count, db)
      else
        (count + 1, (create_session db
          { session_type := "qualifying"
            date := parse_date ((race_info.qualifying >>= SubSession.date) <|> race_info.date)
            time := race_info.qualifying >>= SubSession.time
            status := "completed", round_id := round_id }).2)
    let count := step1.1
    let db := step1.2
    let sprint_data := up.sprint_results season_year round_num
    let step2 : Nat × DB :=
      if sprint_data.isEmpty then (count, db)
      else
        (count + 1, (create_session db
          { session_type := "sprint"
            date := parse_date ((race_info.sprint >>= SubSession.date) <|> race_info.date)
            time := race_info.sprint >>= SubSession.time
            status := "completed", round_id := round_id }).2)
    let count := step2.1
    let db := step2.2
    let step3 : Nat × DB :=
      if season_year ≥ 2000 then
        let db := (create_session db
          { session_type := "practice1"
            date := parse_date (race_info.firstPractice >>= SubSession.date)
            time := race_info.firstPractice >>= SubSession.time
            status := "completed", round_id := round_id }).2
        let count := count + 1
        let db := (create_session db
          { session_type := "practice2"
            date := parse_date (race_info.secondPractice >>= SubSession.date)
            time := race_info.secondPractice >>= SubSession.time
            status := "completed", round_id := round_id }).2
        let count := count + 1
        if sprint_data.isEmpty ∧ race_info.thirdPractice.isSome then
          (count + 1, (create_session db
            { session_type := "practice3"
              date := parse_date (race_info.thirdPractice >>= SubSession.date)
              time := race_info.thirdPractice >>= SubSession.time
              status := "completed", round_id := round_id }).2)
        else (count, db)
      else (count, db)
    .ok (step3.1, step3.2)

/-- The "get or create circuit" block at the top of the race loop of
`import_rounds_for_season`: resolve the embedded circuit reference, or build a
`CircuitCreate` from the embedded circuit payload of the race (coercing
latitude then longitude, either of which may raise) and insert it. -/
def getOrCreateCircuit (rd : RaceData) (db : DB) :
    Except String (CircuitRow × DB) :=
  match get_circuit_by_reference db rd.circuit.circuitId with
  | some c => .ok (c, db)
  | none =>
    match coerceOptFloat (rd.circuit.location >>= Location.lat) with
    | .error e => .error e
    | .ok lat =>
      match coerceOptFloat (rd.circuit.location >>= Location.long) with
      | .error e => .error e
      | .ok long =>
        .ok (create_circuit db
          { reference := rd.circuit.circuitId, name := rd.circuit.circuitName
            locality := rd.circuit.location >>= Location.locality
            country := rd.circuit.location >>= Location.country
            country_code := none, latitude := lat, longitude := long
            altitude := none, wikipedia := rd.circuit.url })

/-- Body of the race loop of `import_rounds_for_season`: resolve or
inline-create the circuit, then skip an already-present round reference,
otherwise parse the round number (which may raise), create the round and
synchronously cascade into session import for that round. -/
def processRace (up : Upstream) (season_year : Int) (season_id : Nat)
    (rd : RaceData) (db : DB) : Except String (Nat × DB) :=
  match getOrCreateCircuit rd db with
  | .error e => .error e
  | .ok (circuit, db1) =>
    let round_reference := toString season_year ++ "-" ++ rd.round
    match get_round_by_reference db1 round_reference with
    | some _ => .ok (0, db1)
    | none =>
      match pyInt rd.round with
      | .error e => .error e
      | .ok rn =>
        let p := create_round db1
          { reference := round_reference, name := rd.raceName
            round_number := rn, date := parse_date rd.date, time := rd.time
            wikipedia := rd.url, season_id := season_id, circuit_id := circuit.id }
        match import_sessions_for_round up season_year rn p.1.id p.2 with
        | .error e => .error e
        | .ok q => .ok (1, q.2)

/-- The race loop of `import_rounds_for_season`. -/
def roundsLoop (up : Upstream) (season_year : Int) (season_id : Nat) :
    List RaceData → DB → Except String (Nat × DB)
  | [], db => .ok (0, db)
  | rd :: rest, db =>
    match processRace up season_year season_id rd db with
    | .error e => .error e
    | .ok p =>
      match roundsLoop up season_year season_id rest p.2 with
      | .error e => .error e
      | .ok q => .ok (p.1 + q.1, q.2)

/-- `import_rounds_for_season(db, season_year)`: a no-op returning 0 when no
Season row for the year exists, otherwise the race loop over the fetched race
list for the year. -/
def import_rounds_for_season (up : Upstream) (season_year : Int) (db : DB) :
    Except String (Nat × DB) :=
  match get_season_by_year db season_year with
  | none => .ok (0, db)
  | some season => roundsLoop up season_year season.id (up.races season_year) db

/-- Loop body of `import_team_drivers_for_season`: resolve driver and team by
reference (skipping with a logged error if either is absent), skip an existing
(team, driver, year) triple, otherwise create.  This routine has no raise
point. -/
def teamDriversLoop (season_year : Int) :
    List TeamDriverData → DB → Nat × DB
  | [], db => (0, db)
  | td :: rest, db =>
    match get_driver_by_reference db td.driverId, get_team_by_reference db td.constructorId with
    | some driver, some team =>
      match get_team_driver db team.id driver.id season_year with
      | some _ => teamDriversLoop season_year rest db
      | none =>
        let p := create_team_driver db
          { team_id := team.id, driver_id := driver.id, season_year := season_year }
        let q := teamDriversLoop season_year rest p.2
        (q.1 + 1, q.2)
    | _, _ => teamDriversLoop season_year rest db

/-- `import_team_drivers_for_season(db, season_year)` over the fetched
standings-derived pairing list. -/
def import_team_drivers_for_season (up : Upstream) (season_year : Int)
    (db : DB) : Nat × DB :=
  teamDriversLoop season_year (up.team_drivers season_year) db

/-- Per-category counts returned by `import_all_f1_data`. -/
structure ImportCounts where
  seasons : Nat
  circuits : Nat
  drivers : Nat
  teams : Nat
  rounds : Nat
  team_drivers : Nat
deriving DecidableEq, Repr

/-- The per-year tail of `import_all_f1_data`: for each year of the inclusive
range, round import (cascading into session import) followed by the
team-driver import.  `fuel` is the number of years left. -/
def yearLoop (up : Upstream) : Nat → Int → DB → Except String (Nat × Nat × DB)
  | 0, _, db => .ok (0, 0, db)
  | fuel + 1, year, db =>
    match import_rounds_for_season up year db with
    | .error e => .error e
    | .ok p =>
      let q := import_team_drivers_for_season up year p.2
      match yearLoop up fuel (year + 1) q.2 with
      | .error e => .error e
      | .ok r => .ok (p.1 + r.1, q.1 + r.2.1, r.2.2)

/-- The upstream collection lists consumed by the flat importers in
`import_all_f1_data`. -/
structure UpstreamLists where
  seasons : List SeasonData
  circuits : List CircuitData
  drivers : List DriverData
  constructors : List ConstructorData

/-- `import_all_f1_data(db, start_year, end_year)`: seasons, circuits, drivers
and teams once, then per-year round and team-driver import over
`[start_year, end_year]`.  (As in `import_seasons`, the wall-clock default for
a falsy `end_year` is replaced by an explicit argument.) -/
def import_all_f1_data (ul : UpstreamLists) (up : Upstream)
    (start_year end_year : Int) (db : DB) : Except String (ImportCounts × DB) :=
  match import_seasons ul.seasons start_year end_year db with
  | .error e => .error e
  | .ok s =>
    match import_circuits ul.circuits s.2 with
    | .error e => .error e
    | .ok c =>
      match import_drivers ul.drivers c.2 with
      | .error e => .error e
      | .ok d =>
        match import_teams ul.constructors d.2 with
        | .error e => .error e
        | .ok t =>
          match yearLoop up (end_year + 1 - start_year).toNat start_year t.2 with
          | .error e => .error e
          | .ok y =>
            .ok ({ seasons := s.1, circuits := c.1, drivers := d.1
                   teams := t.1, rounds := y.1, team_drivers := y.2.1 }, y.2.2)

/-! ## Derived descriptions of the routines -/

/-- The race Session row built for a matched race entry. -/
def raceSession (ri : RaceData) (rid : Nat) : SessionRow :=
  { session_type := "race", date := parse_date ri.date, time := ri.time
    status := "completed", round_id := rid }

/-- The qualifying Session row, with race date as date fallback. -/
def qualiSession (ri : RaceData) (rid : Nat) : SessionRow :=
  { session_type := "qualifying"
    date := parse_date ((ri.qualifying >>= SubSession.date) <|> ri.date)
    time := ri.qualifying >>= SubSession.time
    status := "completed", round_id := rid }

/-- The sprint Session row, with race date as date fallback. -/
def sprintSession (ri : RaceData) (rid : Nat) : SessionRow :=
  { session_type := "sprint"
    date := parse_date ((ri.sprint >>= SubSession.date) <|> ri.date)
    time := ri.sprint >>= SubSession.time
    status := "completed", round_id := rid }

/-- The practice-1 Session row (no date fallback). -/
def practice1Session (ri : RaceData) (rid : Nat) : SessionRow :=
  { session_type := "practice1"
    date := parse_date (ri.firstPractice >>= SubSession.date)
    time := ri.firstPractice >>= SubSession.time
    status := "completed", round_id := rid }

/-- The practice-2 Session row (no date fallback). -/
def practice2Session (ri : RaceData) (rid : Nat) : SessionRow :=
  { session_type := "practice2"
    date := parse_date (ri.secondPractice >>= SubSession.date)
    time := ri.secondPractice >>= SubSession.time
    status := "completed", round_id := rid }

/-- The practice-3 Session row (no date fallback). -/
def practice3Session (ri : RaceData) (rid : Nat) : SessionRow :=
  { session_type := "practice3"
    date := parse_date (ri.thirdPractice >>= SubSession.date)
    time := ri.thirdPractice >>= SubSession.time
    status := "completed", round_id := rid }

/-- The full batch of Session rows `import_sessions_for_round` inserts for a
matched race entry, in insertion order. -/
def newSessionsFor (up : Upstream) (season_year round_num : Int) (round_id : Nat)
    (ri : RaceData) : List SessionRow :=
  [raceSession ri round_id]
    ++ (if (up.qualifying_results season_year round_num).isEmpty then []
        else [qualiSession ri round_id])
    ++ (if (up.sprint_results season_year round_num).isEmpty then []
        else [sprintSession ri round_id])
    ++ (if season_year ≥ 2000 then
          [practice1Session ri round_id, practice2Session ri round_id]
            ++ (if (up.sprint_results season_year round_num).isEmpty ∧ ri.thirdPractice.isSome
                then [practice3Session ri round_id] else [])
        else [])

/-- `import_sessions_for_round` equals: find the race entry, then append the
batch `newSessionsFor` to the sessions table and report its length. -/
theorem import_sessions_for_round_eq (up : Upstream) (season_year round_num : Int)
    (round_id : Nat) (db : DB) :
    import_sessions_for_round up season_year round_num round_id db =
      match findRace (up.races season_year) round_num with
      | .error e => .error e
      | .ok none => .ok (0, db)
      | .ok (some ri) =>
        .ok ((newSessionsFor up season_year round_num round_id ri).length,
          { db with sessions :=
              db.sessions ++ newSessionsFor up season_year round_num round_id ri }) := by
  cases h : findRace (up.races season_year) round_num with
  | error e => simp [import_sessions_for_round, h]
  | ok o =>
    cases o with
    | none => simp [import_sessions_for_round, h]
    | some ri =>
      simp only [import_sessions_for_round, h, newSessionsFor, raceSession,
        qualiSession, sprintSession, practice1Session, practice2Session,
        practice3Session, create_session]
      split_ifs <;> simp_all

/-! ## Additivity order on stores -/

/-- `listExt a b`: table `b` is table `a` with zero or more rows appended, so
every row of `a` is still present, unchanged and in place, in `b`. -/
def listExt {α : Type} (a b : List α) : Prop := ∃ t, b = a ++ t

theorem listExt_refl {α : Type} (a : List α) : listExt a a := ⟨[], by simp⟩

theorem listExt_append {α : Type} (a t : List α) : listExt a (a ++ t) := ⟨t, rfl⟩

theorem listExt_trans {α : Type} {a b c : List α} (h1 : listExt a b)
    (h2 : listExt b c) : listExt a c := by
  obtain ⟨t1, rfl⟩ := h1
  obtain ⟨t2, rfl⟩ := h2
  exact ⟨t1 ++ t2, by simp⟩

theorem find?_some_of_listExt {α : Type} {p : α → Bool} {a b : List α} {r : α}
    (hext : listExt a b) (h : a.find? p = some r) : b.find? p = some r := by
  obtain ⟨t, rfl⟩ := hext
  simp [List.find?_append, h, Option.or]

theorem find?_isSome_of_listExt {α : Type} {p : α → Bool} {a b : List α}
    (hext : listExt a b) (h : (a.find? p).isSome = true) :
    (b.find? p).isSome = true := by
  obtain ⟨r, hr⟩ := Option.isSome_iff_exists.mp h
  exact Option.isSome_iff_exists.mpr ⟨r, find?_some_of_listExt hext hr⟩

/-- Store `b` extends store `a`: every table of `b` is the corresponding table
of `a` with rows appended only. -/
def DBle (a b : DB) : Prop :=
  listExt a.seasons b.seasons ∧ listExt a.circuits b.circuits ∧
  listExt a.drivers b.drivers ∧ listExt a.teams b.teams ∧
  listExt a.rounds b.rounds ∧ listExt a.sessions b.sessions ∧
  listExt a.teamDrivers b.teamDrivers

theorem DBle_refl (db : DB) : DBle db db :=
  ⟨listExt_refl _, listExt_refl _, listExt_refl _, listExt_refl _,
   listExt_refl _, listExt_refl _, listExt_refl _⟩

theorem DBle_trans {a b c : DB} (h1 : DBle a b) (h2 : DBle b c) : DBle a c :=
  ⟨listExt_trans h1.1 h2.1, listExt_trans h1.2.1 h2.2.1,
   listExt_trans h1.2.2.1 h2.2.2.1, listExt_trans h1.2.2.2.1 h2.2.2.2.1,
   listExt_trans h1.2.2.2.2.1 h2.2.2.2.2.1,
   listExt_trans h1.2.2.2.2.2.1 h2.2.2.2.2.2.1,
   listExt_trans h1.2.2.2.2.2.2 h2.2.2.2.2.2.2⟩

theorem DBle_create_season (db : DB) (c : SeasonCreate) :
    DBle db (create_season db c).2 :=
  ⟨listExt_append _ _, listExt_refl _, listExt_refl _, listExt_refl _,
   listExt_refl _, listExt_refl _, listExt_refl _⟩

theorem DBle_create_circuit (db : DB) (c : CircuitCreate) :
    DBle db (create_circuit db c).2 :=
  ⟨listExt_refl _, listExt_append _ _, listExt_refl _, listExt_refl _,
   listExt_refl _, listExt_refl _, listExt_refl _⟩

theorem DBle_create_driver (db : DB) (c : DriverCreate) :
    DBle db (create_driver db c).2 :=
  ⟨listExt_refl _, listExt_refl _, listExt_append _ _, listExt_refl _,
   listExt_refl _, listExt_refl _, listExt_refl _⟩

theorem DBle_create_team (db : DB) (c : TeamCreate) :
    DBle db (create_team db c).2 :=
  ⟨listExt_refl _, listExt_refl _, listExt_refl _, listExt_append _ _,
   listExt_refl _, listExt_refl _, listExt_refl _⟩

theorem DBle_create_round (db : DB) (c : RoundCreate) :
    DBle db (create_round db c).2 :=
  ⟨listExt_refl _, listExt_refl _, listExt_refl _, listExt_refl _,
   listExt_append _ _, listExt_refl _, listExt_refl _⟩

theorem DBle_create_team_driver (db : DB) (c : TeamDriverCreate) :
    DBle db (create_team_driver db c).2 :=
  ⟨listExt_refl _, listExt_refl _, listExt_refl _, listExt_refl _,
   listExt_refl _, listExt_refl _, listExt_append _ _⟩

theorem season_lookup_mono {a b : DB} {y : Int} {r : SeasonRow} (h : DBle a b)
    (hs : get_season_by_year a y = some r) : get_season_by_year b y = some r :=
  find?_some_of_listExt h.1 hs

theorem season_isSome_mono {a b : DB} {y : Int} (h : DBle a b)
    (hs : (get_season_by_year a y).isSome = true) :
    (get_season_by_year b y).isSome = true :=
  find?_isSome_of_listExt h.1 hs

theorem circuit_isSome_mono {a b : DB} {ref : String} (h : DBle a b)
    (hs : (get_circuit_by_reference a ref).isSome = true) :
    (get_circuit_by_reference b ref).isSome = true :=
  find?_isSome_of_listExt h.2.1 hs

theorem driver_isSome_mono {a b : DB} {ref : String} (h : DBle a b)
    (hs : (get_driver_by_reference a ref).isSome = true) :
    (get_driver_by_reference b ref).isSome = true :=
  find?_isSome_of_listExt h.2.2.1 hs

theorem team_isSome_mono {a b : DB} {ref : String} (h : DBle a b)
    (hs : (get_team_by_reference a ref).isSome = true) :
    (get_team_by_reference b ref).isSome = true :=
  find?_isSome_of_listExt h.2.2.2.1 hs

theorem round_isSome_mono {a b : DB} {ref : String} (h : DBle a b)
    (hs : (get_round_by_reference a ref).isSome = true) :
    (get_round_by_reference b ref).isSome = true :=
  find?_isSome_of_listExt h.2.2.2.2.1 hs

/-! ## Season import lemmas -/

theorem seasonsLoop_DBle (s e : Int) :
    ∀ (l : List SeasonData) (db : DB) (n : Nat) (db1 : DB),
      seasonsLoop s e l db = .ok (n, db1) → DBle db db1 := by
  intro l
  induction l with
  | nil =>
    intro db n db1 h
    simp only [seasonsLoop] at h
    cases h
    exact DBle_refl _
  | cons sd rest ih =>
    intro db n db1 h
    simp only [seasonsLoop] at h
    split at h
    · simp at h
    · split at h
      · exact ih _ _ _ h
      · split at h
        · exact ih _ _ _ h
        · split at h
          · simp at h
          · rename_i q heq
            cases h
            exact DBle_trans (DBle_create_season _ _) (ih _ _ _ heq)

theorem seasonsLoop_covers (s e : Int) :
    ∀ (l : List SeasonData) (db : DB) (n : Nat) (db1 : DB),
      seasonsLoop s e l db = .ok (n, db1) →
      ∀ sd ∈ l, ∃ y, pyInt sd.season = .ok y ∧
        (¬(y < s ∨ y > e) → (get_season_by_year db1 y).isSome = true) := by
  intro l
  induction l with
  | nil =>
    intro db n db1 _ sd hm
    cases hm
  | cons sd0 rest ih =>
    intro db n db1 h sd hm
    simp only [seasonsLoop] at h
    split at h
    · simp at h
    · rename_i y hy
      split at h
      · rename_i hrange
        rcases List.mem_cons.mp hm with rfl | hm2
        · exact ⟨y, hy, fun hin => absurd hrange hin⟩
        · exact ih _ _ _ h sd hm2
      · rename_i hrange
        split at h
        · rename_i r hex
          rcases List.mem_cons.mp hm with rfl | hm2
          · refine ⟨y, hy, fun _ => ?_⟩
            exact season_isSome_mono (seasonsLoop_DBle s e rest db n db1 h)
              (by simp [hex])
          · exact ih _ _ _ h sd hm2
        · rename_i hex
          split at h
          · simp at h
          · rename_i q heq
            cases h
            rcases List.mem_cons.mp hm with rfl | hm2
            · refine ⟨y, hy, fun _ => ?_⟩
              refine season_isSome_mono (seasonsLoop_DBle s e rest _ _ _ heq) ?_
              simp [get_season_by_year, create_season, List.find?_append]
            · exact ih _ _ _ heq sd hm2

theorem seasonsLoop_skip (s e : Int) :
    ∀ (l : List SeasonData) (db : DB),
      (∀ sd ∈ l, ∃ y, pyInt sd.season = .ok y ∧
        (¬(y < s ∨ y > e) → (get_season_by_year db y).isSome = true)) →
      seasonsLoop s e l db = .ok (0, db) := by
  intro l
  induction l with
  | nil => intro db _; rfl
  | cons sd rest ih =>
    intro db h
    obtain ⟨y, hy, himp⟩ := h sd (List.mem_cons_self _ _)
    simp only [seasonsLoop, hy]
    by_cases hr : y < s ∨ y > e
    · rw [if_pos hr]
      exact ih db (fun x hx => h x (List.mem_cons_of_mem _ hx))
    · rw [if_neg hr]
      obtain ⟨r, hrr⟩ := Option.isSome_iff_exists.mp (himp hr)
      rw [hrr]
      exact ih db (fun x hx => h x (List.mem_cons_of_mem _ hx))

/-- Re-running `import_seasons` with the same scope over the same upstream
list right after a successful run creates nothing and leaves the store as it
was. -/
theorem import_seasons_idem {l : List SeasonData} {s e : Int} {db : DB}
    {n : Nat} {db1 : DB} (h : import_seasons l s e db = .ok (n, db1)) :
    import_seasons l s e db1 = .ok (0, db1) :=
  seasonsLoop_skip s e l db1 (seasonsLoop_covers s e l db n db1 h)

/-! ## Circuit, driver and team import lemmas -/

theorem circuitsLoop_DBle :
    ∀ (l : List CircuitData) (db : DB) (n : Nat) (db1 : DB),
      circuitsLoop l db = .ok (n, db1) → DBle db db1 := by
  intro l
  induction l with
  | nil =>
    intro db n db1 h
    simp only [circuitsLoop] at h
    cases h
    exact DBle_refl _
  | cons cd rest ih =>
    intro db n db1 h
    simp only [circuitsLoop] at h
    split at h
    · exact ih _ _ _ h
    · split at h
      · simp at h
      · split at h
        · simp at h
        · split at h
          · simp at h
          · rename_i q heq
            cases h
            exact DBle_trans (DBle_create_circuit _ _) (ih _ _ _ heq)

theorem circuitsLoop_covers :
    ∀ (l : List CircuitData) (db : DB) (n : Nat) (db1 : DB),
      circuitsLoop l db = .ok (n, db1) →
      ∀ cd ∈ l, (get_circuit_by_reference db1 cd.circuitId).isSome = true := by
  intro l
  induction l with
  | nil =>
    intro db n db1 _ cd hm
    cases hm
  | cons cd0 rest ih =>
    intro db n db1 h cd hm
    simp only [circuitsLoop] at h
    split at h
    · rename_i r hex
      rcases List.mem_cons.mp hm with rfl | hm2
      · exact circuit_isSome_mono (circuitsLoop_DBle rest db n db1 h) (by simp [hex])
      · exact ih _ _ _ h cd hm2
    · rename_i hex
      split at h
      · simp at h
      · split at h
        · simp at h
        · split at h
          · simp at h
          · rename_i q heq
            cases h
            rcases List.mem_cons.mp hm with rfl | hm2
            · refine circuit_isSome_mono (circuitsLoop_DBle rest _ _ _ heq) ?_
              simp [get_circuit_by_reference, create_circuit, List.find?_append]
            · exact ih _ _ _ heq cd hm2

theorem circuitsLoop_skip :
    ∀ (l : List CircuitData) (db : DB),
      (∀ cd ∈ l, (get_circuit_by_reference db cd.circuitId).isSome = true) →
      circuitsLoop l db = .ok (0, db) := by
  intro l
  induction l with
  | nil => intro db _; rfl
  | cons cd rest ih =>
    intro db h
    obtain ⟨r, hr⟩ := Option.isSome_iff_exists.mp (h cd (List.mem_cons_self _ _))
    simp only [circuitsLoop, hr]
    exact ih db (fun x hx => h x (List.mem_cons_of_mem _ hx))

/-- Re-running `import_circuits` over the same upstream list right after a
successful run creates nothing and leaves the store as it was. -/
theorem import_circuits_idem {l : List CircuitData} {db : DB} {n : Nat}
    {db1 : DB} (h : import_circuits l db = .ok (n, db1)) :
    import_circuits l db1 = .ok (0, db1) :=
  circuitsLoop_skip l db1 (circuitsLoop_covers l db n db1 h)

theorem driversLoop_DBle :
    ∀ (l : List DriverData) (db : DB) (n : Nat) (db1 : DB),
      driversLoop l db = .ok (n, db1) → DBle db db1 := by
  intro l
  induction l with
  | nil =>
    intro db n db1 h
    simp only [driversLoop] at h
    cases h
    exact DBle_refl _
  | cons dd rest ih =>
    intro db n db1 h
    simp only [driversLoop] at h
    split at h
    · exact ih _ _ _ h
    · split at h
      · simp at h
      · split at h
        · simp at h
        · rename_i q heq
          cases h
          exact DBle_trans (DBle_create_driver _ _) (ih _ _ _ heq)

theorem driversLoop_covers :
    ∀ (l : List DriverData) (db : DB) (n : Nat) (db1 : DB),
      driversLoop l db = .ok (n, db1) →
      ∀ dd ∈ l, (get_driver_by_reference db1 dd.driverId).isSome = true := by
  intro l
  induction l with
  | nil =>
    intro db n db1 _ dd hm
    cases hm
  | cons dd0 rest ih =>
    intro db n db1 h dd hm
    simp only [driversLoop] at h
    split at h
    · rename_i r hex
      rcases List.mem_cons.mp hm with rfl | hm2
      · exact driver_isSome_mono (driversLoop_DBle rest db n db1 h) (by simp [hex])
      · exact ih _ _ _ h dd hm2
    · rename_i hex
      split at h
      · simp at h
      · split at h
        · simp at h
        · rename_i q heq
          cases h
          rcases List.mem_cons.mp hm with rfl | hm2
          · refine driver_isSome_mono (driversLoop_DBle rest _ _ _ heq) ?_
            simp [get_driver_by_reference, create_driver, List.find?_append]
          · exact ih _ _ _ heq dd hm2

theorem driversLoop_skip :
    ∀ (l : List DriverData) (db : DB),
      (∀ dd ∈ l, (get_driver_by_reference db dd.driverId).isSome = true) →
      driversLoop l db = .ok (0, db) := by
  intro l
  induction l with
  | nil => intro db _; rfl
  | cons dd rest ih =>
    intro db h
    obtain ⟨r, hr⟩ := Option.isSome_iff_exists.mp (h dd (List.mem_cons_self _ _))
    simp only [driversLoop, hr]
    exact ih db (fun x hx => h x (List.mem_cons_of_mem _ hx))

/-- Re-running `import_drivers` over the same upstream list right after a
successful run creates nothing and leaves the store as it was. -/
theorem import_drivers_idem {l : List DriverData} {db : DB} {n : Nat}
    {db1 : DB} (h : import_drivers l db = .ok (n, db1)) :
    import_drivers l db1 = .ok (0, db1) :=
  driversLoop_skip l db1 (driversLoop_covers l db n db1 h)

theorem teamsLoop_DBle :
    ∀ (l : List ConstructorData) (db : DB) (n : Nat) (db1 : DB),
      teamsLoop l db = .ok (n, db1) → DBle db db1 := by
  intro l
  induction l with
  | nil =>
    intro db n db1 h
    simp only [teamsLoop] at h
    cases h
    exact DBle_refl _
  | cons td rest ih =>
    intro db n db1 h
    simp only [teamsLoop] at h
    split at h
    · exact ih _ _ _ h
    · split at h
      · simp at h
      · rename_i q heq
        cases h
        exact DBle_trans (DBle_create_team _ _) (ih _ _ _ heq)

theorem teamsLoop_covers :
    ∀ (l : List ConstructorData) (db : DB) (n : Nat) (db1 : DB),
      teamsLoop l db = .ok (n, db1) →
      ∀ td ∈ l, (get_team_by_reference db1 td.constructorId).isSome = true := by
  intro l
  induction l with
  | nil =>
    intro db n db1 _ td hm
    cases hm
  | cons td0 rest ih =>
    intro db n db1 h td hm
    simp only [teamsLoop] at h
    split at h
    · rename_i r hex
      rcases List.mem_cons.mp hm with rfl | hm2
      · exact team_isSome_mono (teamsLoop_DBle rest db n db1 h) (by simp [hex])
      · exact ih _ _ _ h td hm2
    · rename_i hex
      split at h
      · simp at h
      · rename_i q heq
        cases h
        rcases List.mem_cons.mp hm with rfl | hm2
        · refine team_isSome_mono (teamsLoop_DBle rest _ _ _ heq) ?_
          simp [get_team_by_reference, create_team, List.find?_append]
        · exact ih _ _ _ heq td hm2

theorem teamsLoop_skip :
    ∀ (l : List ConstructorData) (db : DB),
      (∀ td ∈ l, (get_team_by_reference db td.constructorId).isSome = true) →
      teamsLoop l db = .ok (0, db) := by
  intro l
  induction l with
  | nil => intro db _; rfl
  | cons td rest ih =>
    intro db h
    obtain ⟨r, hr⟩ := Option.isSome_iff_exists.mp (h td (List.mem_cons_self _ _))
    simp only [teamsLoop, hr]
    exact ih db (fun x hx => h x (List.mem_cons_of_mem _ hx))

/-- Re-running `import_teams` over the same upstream list right after a
successful run creates nothing and leaves the store as it was. -/
theorem import_teams_idem {l : List ConstructorData} {db : DB} {n : Nat}
    {db1 : DB} (h : import_teams l db = .ok (n, db1)) :
    import_teams l db1 = .ok (0, db1) :=
  teamsLoop_skip l db1 (teamsLoop_covers l db n db1 h)

/-! ## Session and round import lemmas -/

theorem listExt_of_eq {α : Type} {a b : List α} (h : b = a) : listExt a b :=
  h ▸ listExt_refl a

theorem import_sessions_tables {up : Upstream} {y r : Int} {rid : Nat}
    {db : DB} {n : Nat} {db1 : DB}
    (h : import_sessions_for_round up y r rid db = .ok (n, db1)) :
    db1.seasons = db.seasons ∧ db1.circuits = db.circuits ∧
    db1.drivers = db.drivers ∧ db1.teams = db.teams ∧
    db1.rounds = db.rounds ∧ listExt db.sessions db1.sessions ∧
    db1.teamDrivers = db.teamDrivers := by
  rw [import_sessions_for_round_eq] at h
  split at h
  · simp at h
  · cases h
    exact ⟨rfl, rfl, rfl, rfl, rfl, listExt_refl _, rfl⟩
  · cases h
    exact ⟨rfl, rfl, rfl, rfl, rfl, listExt_append _ _, rfl⟩

theorem import_sessions_DBle {up : Upstream} {y r : Int} {rid : Nat}
    {db : DB} {n : Nat} {db1 : DB}
    (h : import_sessions_for_round up y r rid db = .ok (n, db1)) :
    DBle db db1 := by
  obtain ⟨e1, e2, e3, e4, e5, e6, e7⟩ := import_sessions_tables h
  exact ⟨listExt_of_eq e1, listExt_of_eq e2, listExt_of_eq e3, listExt_of_eq e4,
    listExt_of_eq e5, e6, listExt_of_eq e7⟩

theorem getOrCreateCircuit_ok {rd : RaceData} {db : DB} {c : CircuitRow}
    {db1 : DB} (h : getOrCreateCircuit rd db = .ok (c, db1)) :
    db1.seasons = db.seasons ∧ listExt db.circuits db1.circuits ∧
    db1.drivers = db.drivers ∧ db1.teams = db.teams ∧
    db1.rounds = db.rounds ∧ db1.sessions = db.sessions ∧
    db1.teamDrivers = db.teamDrivers ∧
    (get_circuit_by_reference db1 rd.circuit.circuitId).isSome = true := by
  simp only [getOrCreateCircuit] at h
  split at h
  · rename_i c0 hex
    cases h
    exact ⟨rfl, listExt_refl _, rfl, rfl, rfl, rfl, rfl, by simp [hex]⟩
  · rename_i hex
    split at h
    · simp at h
    · split at h
      · simp at h
      · cases h
        refine ⟨rfl, listExt_append _ _, rfl, rfl, rfl, rfl, rfl, ?_⟩
        simp [get_circuit_by_reference, create_circuit, List.find?_append]

theorem getOrCreateCircuit_DBle {rd : RaceData} {db : DB} {c : CircuitRow}
    {db1 : DB} (h : getOrCreateCircuit rd db = .ok (c, db1)) : DBle db db1 := by
  obtain ⟨e1, e2, e3, e4, e5, e6, e7, _⟩ := getOrCreateCircuit_ok h
  exact ⟨listExt_of_eq e1, e2, listExt_of_eq e3, listExt_of_eq e4,
    listExt_of_eq e5, listExt_of_eq e6, listExt_of_eq e7⟩

theorem processRace_DBle {up : Upstream} {y : Int} {sid : Nat} {rd : RaceData}
    {db : DB} {n : Nat} {db1 : DB}
    (h : processRace up y sid rd db = .ok (n, db1)) : DBle db db1 := by
  simp only [processRace] at h
  split at h
  · simp at h
  · rename_i cA dbA hA
    have hle1 : DBle db dbA := getOrCreateCircuit_DBle hA
    split at h
    · cases h
      exact hle1
    · split at h
      · simp at h
      · split at h
        · simp at h
        · rename_i q heq
          cases h
          exact DBle_trans hle1
            (DBle_trans (DBle_create_round _ _) (import_sessions_DBle heq))

theorem processRace_covers {up : Upstream} {y : Int} {sid : Nat}
    {rd : RaceData} {db : DB} {n : Nat} {db1 : DB}
    (h : processRace up y sid rd db = .ok (n, db1)) :
    (get_circuit_by_reference db1 rd.circuit.circuitId).isSome = true ∧
    (get_round_by_reference db1 (toString y ++ "-" ++ rd.round)).isSome = true := by
  simp only [processRace] at h
  split at h
  · simp at h
  · rename_i cA dbA hA
    obtain ⟨e1, cext, e3, e4, e5, e6, e7, hcirc⟩ := getOrCreateCircuit_ok hA
    split at h
    · rename_i r0 hex
      cases h
      exact ⟨hcirc, by simp [hex]⟩
    · rename_i hex
      split at h
      · simp at h
      · split at h
        · simp at h
        · rename_i q heq
          cases h
          obtain ⟨f1, f2, f3, f4, f5, f6, f7⟩ := import_sessions_tables heq
          constructor
          · have hc2 : q.2.circuits = dbA.circuits := f2
            unfold get_circuit_by_reference at hcirc ⊢
            rw [hc2]
            exact hcirc
          · unfold get_round_by_reference
            rw [show q.2.rounds = _ from f5]
            simp [create_round, List.find?_append]

theorem processRace_skip (up : Upstream) (y : Int) (sid : Nat) (rd : RaceData)
    (db : DB)
    (hc : (get_circuit_by_reference db rd.circuit.circuitId).isSome = true)
    (hr : (get_round_by_reference db (toString y ++ "-" ++ rd.round)).isSome = true) :
    processRace up y sid rd db = .ok (0, db) := by
  obtain ⟨c, hcs⟩ := Option.isSome_iff_exists.mp hc
  obtain ⟨r, hrs⟩ := Option.isSome_iff_exists.mp hr
  simp only [processRace, getOrCreateCircuit, hcs, hrs]

theorem roundsLoop_DBle {up : Upstream} {y : Int} {sid : Nat} :
    ∀ (l : List RaceData) (db : DB) (n : Nat) (db1 : DB),
      roundsLoop up y sid l db = .ok (n, db1) → DBle db db1 := by
  intro l
  induction l with
  | nil =>
    intro db n db1 h
    simp only [roundsLoop] at h
    cases h
    exact DBle_refl _
  | cons rd rest ih =>
    intro db n db1 h
    simp only [roundsLoop] at h
    split at h
    · simp at h
    · rename_i p hp
      split at h
      · simp at h
      · rename_i q heq
        cases h
        exact DBle_trans (processRace_DBle hp) (ih _ _ _ heq)

theorem roundsLoop_covers {up : Upstream} {y : Int} {sid : Nat} :
    ∀ (l : List RaceData) (db : DB) (n : Nat) (db1 : DB),
      roundsLoop up y sid l db = .ok (n, db1) →
      ∀ rd ∈ l,
        (get_circuit_by_reference db1 rd.circuit.circuitId).isSome = true ∧
        (get_round_by_reference db1 (toString y ++ "-" ++ rd.round)).isSome = true := by
  intro l
  induction l with
  | nil =>
    intro db n db1 _ rd hm
    cases hm
  | cons rd0 rest ih =>
    intro db n db1 h rd hm
    simp only [roundsLoop] at h
    split at h
    · simp at h
    · rename_i p hp
      split at h
      · simp at h
      · rename_i q heq
        cases h
        rcases List.mem_cons.mp hm with rfl | hm2
        · obtain ⟨h1, h2⟩ := processRace_covers hp
          have hle : DBle p.2 q.2 := roundsLoop_DBle rest _ _ _ heq
          exact ⟨circuit_isSome_mono hle h1, round_isSome_mono hle h2⟩
        · exact ih _ _ _ heq rd hm2

theorem roundsLoop_skip (up : Upstream) (y : Int) (sid : Nat) :
    ∀ (l : List RaceData) (db : DB),
      (∀ rd ∈ l,
        (get_circuit_by_reference db rd.circuit.circuitId).isSome = true ∧
        (get_round_by_reference db (toString y ++ "-" ++ rd.round)).isSome = true) →
      roundsLoop up y sid l db = .ok (0, db) := by
  intro l
  induction l with
  | nil => intro db _; rfl
  | cons rd rest ih =>
    intro db h
    obtain ⟨hc, hr⟩ := h rd (List.mem_cons_self _ _)
    simp only [roundsLoop, processRace_skip up y sid rd db hc hr]
    rw [ih db (fun x hx => h x (List.mem_cons_of_mem _ hx))]
    simp

/-- Re-running `import_rounds_for_season` for the same year over the same
upstream data right after a successful run creates nothing and leaves the
store as it was. -/
theorem import_rounds_idem {up : Upstream} {y : Int} {db : DB} {n : Nat}
    {db1 : DB} (h : import_rounds_for_season up y db = .ok (n, db1)) :
    import_rounds_for_season up y db1 = .ok (0, db1) := by
  simp only [import_rounds_for_season] at h ⊢
  split at h
  · rename_i hnone
    cases h
    rw [hnone]
  · rename_i s hs
    have hDB : DBle db db1 := roundsLoop_DBle _ _ _ _ h
    rw [season_lookup_mono hDB hs]
    exact roundsLoop_skip up y s.id _ db1 (roundsLoop_covers _ _ _ _ h)

/-! ## Remaining frame lemmas -/

theorem import_rounds_DBle {up : Upstream} {y : Int} {db : DB} {n : Nat}
    {db1 : DB} (h : import_rounds_for_season up y db = .ok (n, db1)) :
    DBle db db1 := by
  simp only [import_rounds_for_season] at h
  split at h
  · cases h
    exact DBle_refl _
  · exact roundsLoop_DBle _ _ _ _ h

theorem teamDriversLoop_DBle (y : Int) :
    ∀ (l : List TeamDriverData) (db : DB),
      DBle db (teamDriversLoop y l db).2 := by
  intro l
  induction l with
  | nil =>
    intro db
    exact DBle_refl _
  | cons td rest ih =>
    intro db
    simp only [teamDriversLoop]
    split
    · split
      · exact ih db
      · exact DBle_trans (DBle_create_team_driver _ _) (ih _)
    · exact ih db

theorem import_team_drivers_DBle (up : Upstream) (y : Int) (db : DB) :
    DBle db (import_team_drivers_for_season up y db).2 :=
  teamDriversLoop_DBle y _ db

theorem yearLoop_DBle {up : Upstream} :
    ∀ (fuel : Nat) (y : Int) (db : DB) (n m : Nat) (db1 : DB),
      yearLoop up fuel y db = .ok (n, m, db1) → DBle db db1 := by
  intro fuel
  induction fuel with
  | zero =>
    intro y db n m db1 h
    simp only [yearLoop] at h
    cases h
    exact DBle_refl _
  | succ k ih =>
    intro y db n m db1 h
    simp only [yearLoop] at h
    split at h
    · simp at h
    · rename_i p hp
      split at h
      · simp at h
      · rename_i r hr
        cases h
        exact DBle_trans (import_rounds_DBle hp)
          (DBle_trans (import_team_drivers_DBle up y p.2) (ih _ _ _ _ _ hr))

theorem import_all_DBle {ul : UpstreamLists} {up : Upstream}
    {s e : Int} {db : DB} {cnt : ImportCounts} {db1 : DB}
    (h : import_all_f1_data ul up s e db = .ok (cnt, db1)) : DBle db db1 := by
  simp only [import_all_f1_data] at h
  split at h
  · simp at h
  · rename_i ps hs
    split at h
    · simp at h
    · rename_i pc hc
      split at h
      · simp at h
      · rename_i pd hd
        split at h
        · simp at h
        · rename_i pt ht
          split at h
          · simp at h
          · rename_i py hy
            cases h
            exact DBle_trans (seasonsLoop_DBle _ _ _ _ _ _ hs)
              (DBle_trans (circuitsLoop_DBle _ _ _ _ hc)
                (DBle_trans (driversLoop_DBle _ _ _ _ hd)
                  (DBle_trans (teamsLoop_DBle _ _ _ _ ht)
                    (yearLoop_DBle _ _ _ _ _ _ hy))))

/-! ## Which season years exist after a season import -/

theorem get_season_create (db : DB) (c : SeasonCreate) (y : Int) :
    (get_season_by_year (create_season db c).2 y).isSome = true ↔
      ((get_season_by_year db y).isSome = true ∨ y = c.year) := by
  simp only [get_season_by_year, create_season, List.find?_append]
  cases hf : db.seasons.find? (fun r => r.year == y) with
  | some r => simp [Option.or]
  | none =>
    simp only [Option.or, List.find?]
    constructor
    · intro h
      right
      by_contra hne
      have : (c.year == y) = false := by
        simp [beq_iff_eq]
        omega
      rw [this] at h
      simp at h
    · rintro (h | rfl)
      · simp at h
      · simp

theorem seasonsLoop_years (s e : Int) :
    ∀ (l : List SeasonData) (db : DB) (n : Nat) (db1 : DB),
      seasonsLoop s e l db = .ok (n, db1) →
      ∀ y : Int, (get_season_by_year db1 y).isSome = true ↔
        ((get_season_by_year db y).isSome = true ∨
         ∃ sd ∈ l, pyInt sd.season = .ok y ∧ s ≤ y ∧ y ≤ e) := by
  intro l
  induction l with
  | nil =>
    intro db n db1 h y
    simp only [seasonsLoop] at h
    cases h
    simp
  | cons sd0 rest ih =>
    intro db n db1 h y
    simp only [seasonsLoop] at h
    split at h
    · simp at h
    · rename_i y0 hy
      split at h
      · rename_i hrange
        rw [ih _ _ _ h y]
        constructor
        · rintro (hl | ⟨sd, hm, hp⟩)
          · exact Or.inl hl
          · exact Or.inr ⟨sd, List.mem_cons_of_mem _ hm, hp⟩
        · rintro (hl | ⟨sd, hm, hp, h1, h2⟩)
          · exact Or.inl hl
          · rcases List.mem_cons.mp hm with rfl | hm2
            · rw [hy] at hp
              cases hp
              omega
            · exact Or.inr ⟨sd, hm2, hp, h1, h2⟩
      · rename_i hrange
        split at h
        · rename_i r hex
          rw [ih _ _ _ h y]
          constructor
          · rintro (hl | ⟨sd, hm, hp⟩)
            · exact Or.inl hl
            · exact Or.inr ⟨sd, List.mem_cons_of_mem _ hm, hp⟩
          · rintro (hl | ⟨sd, hm, hp, h1, h2⟩)
            · exact Or.inl hl
            · rcases List.mem_cons.mp hm with rfl | hm2
              · rw [hy] at hp
                cases hp
                exact Or.inl (by simp [hex])
              · exact Or.inr ⟨sd, hm2, hp, h1, h2⟩
        · rename_i hex
          split at h
          · simp at h
          · rename_i q heq
            cases h
            rw [ih _ _ _ heq y, get_season_create]
            constructor
            · rintro ((hl | rfl) | ⟨sd, hm, hp⟩)
              · exact Or.inl hl
              · exact Or.inr ⟨sd0, List.mem_cons_self _ _, hy, by omega, by omega⟩
              · exact Or.inr ⟨sd, List.mem_cons_of_mem _ hm, hp⟩
            · rintro (hl | ⟨sd, hm, hp, h1, h2⟩)
              · exact Or.inl (Or.inl hl)
              · rcases List.mem_cons.mp hm with rfl | hm2
                · rw [hy] at hp
                  cases hp
                  exact Or.inl (Or.inr rfl)
                · exact Or.inr ⟨sd, hm2, hp, h1, h2⟩

/-! ## Shape of the session batch -/

theorem newSessionsFor_mem (up : Upstream) (y r : Int) (rid : Nat)
    (ri : RaceData) :
    ∀ srow ∈ newSessionsFor up y r rid ri,
      srow = raceSession ri rid ∨ srow = qualiSession ri rid ∨
      srow = sprintSession ri rid ∨ srow = practice1Session ri rid ∨
      srow = practice2Session ri rid ∨ srow = practice3Session ri rid := by
  intro srow h
  unfold newSessionsFor at h
  split_ifs at h <;> simp_all <;> tauto

theorem newSessionsFor_status (up : Upstream) (y r : Int) (rid : Nat)
    (ri : RaceData) :
    ∀ srow ∈ newSessionsFor up y r rid ri, srow.status = "completed" := by
  intro srow h
  rcases newSessionsFor_mem up y r rid ri srow h with
    rfl | rfl | rfl | rfl | rfl | rfl <;> rfl

theorem newSessionsFor_round_id (up : Upstream) (y r : Int) (rid : Nat)
    (ri : RaceData) :
    ∀ srow ∈ newSessionsFor up y r rid ri, srow.round_id = rid := by
  intro srow h
  rcases newSessionsFor_mem up y r rid ri srow h with
    rfl | rfl | rfl | rfl | rfl | rfl <;> rfl

theorem newSessionsFor_race_count (up : Upstream) (y r : Int) (rid : Nat)
    (ri : RaceData) :
    ((newSessionsFor up y r rid ri).filter
      (fun srow => srow.session_type == "race")).length = 1 := by
  unfold newSessionsFor
  split_ifs <;>
    simp [List.filter, raceSession, qualiSession, sprintSession,
      practice1Session, practice2Session, practice3Session]

theorem newSessionsFor_pre2000 (up : Upstream) (y r : Int) (rid : Nat)
    (ri : RaceData) (hy : y < 2000) :
    ∀ srow ∈ newSessionsFor up y r rid ri,
      srow.session_type = "race" ∨ srow.session_type = "qualifying" ∨
      srow.session_type = "sprint" := by
  intro srow h
  unfold newSessionsFor at h
  rw [if_neg (by omega : ¬ y ≥ 2000)] at h
  split_ifs at h <;>
    simp_all [raceSession, qualiSession, sprintSession] <;>
    rcases h with rfl | rfl | rfl <;> simp

theorem newSessionsFor_c3_shape (up : Upstream) (y r : Int) (rid : Nat)
    (ri : RaceData) (hy : y ≥ 2000)
    (hsprint : up.sprint_results y r = [])
    (htp : ri.thirdPractice.isSome = true)
    (hquali : (up.qualifying_results y r).isEmpty = false) :
    newSessionsFor up y r rid ri =
      [raceSession ri rid, qualiSession ri rid, practice1Session ri rid,
       practice2Session ri rid, practice3Session ri rid] := by
  unfold newSessionsFor
  rw [hsprint]
  simp [hquali, hy, htp]

/-! ## Concrete fixtures -/

/-- An upstream with no data at all (what the fetcher yields when every call
fails). -/
def emptyUpstream : Upstream :=
  { races := fun _ => [], qualifying_results := fun _ _ => []
    sprint_results := fun _ _ => [], team_drivers := fun _ => [] }

/-- The store after importing the single upstream season `"2021"` into an
empty store. -/
def c1db : DB :=
  { emptyDB with seasons := [{ id := 0, year := 2021, wikipedia := none }]
                 nextSeasonId := 1 }

/-- One fully-populated race entry: embedded circuit with coordinates, a
qualifying block without its own date, no sprint block, practice blocks with
a `ThirdPractice` key present. -/
def sampleRace : RaceData :=
  { round := "1", raceName := "Sample Grand Prix"
    circuit :=
      { circuitId := "c1", circuitName := "Circuit One"
        location := some
          { locality := some "Town", country := some "Country"
            lat := some "4.5", long := some "9.1" }
        url := none }
    date := some "2021-03-28", time := some "15:00:00Z", url := none
    qualifying := some { date := none, time := some "12:00:00Z" }
    sprint := none
    firstPractice := some { date := some "2021-03-26", time := none }
    secondPractice := none
    thirdPractice := some { date := some "2021-03-27", time := none } }

/-- An upstream whose every race list is `[sampleRace]`, with non-empty
qualifying results and empty sprint results for every round. -/
def sampleUpstream : Upstream :=
  { races := fun _ => [sampleRace], qualifying_results := fun _ _ => [()]
    sprint_results := fun _ _ => [], team_drivers := fun _ => [] }

/-- The session batch `import_sessions_for_round` builds from `sampleRace`
for round id 7. -/
def sampleSessions : List SessionRow :=
  [raceSession sampleRace 7, qualiSession sampleRace 7,
   practice1Session sampleRace 7, practice2Session sampleRace 7,
   practice3Session sampleRace 7]

/-- The store after one session import of `sampleRace` into an empty store. -/
def sampleDB1 : DB := { emptyDB with sessions := sampleSessions }

/-- The store after a second identical session import. -/
def sampleDB2 : DB := { emptyDB with sessions := sampleSessions ++ sampleSessions }

/-! ## Claims -/

/-- Claim C1: for every entity kind with a natural key (Season, Circuit,
Driver, Team, Round), running the corresponding import routine twice in
succession with the same scope and the same upstream data leaves the
persisted store after the second run equal to the store after the first run,
and the second run returns a created-count of zero. -/
theorem claim_c1_natural_key_idempotent :
    (∀ (l : List SeasonData) (s e : Int) (db : DB) (n : Nat) (db1 : DB),
      import_seasons l s e db = .ok (n, db1) →
      import_seasons l s e db1 = .ok (0, db1)) ∧
    (∀ (l : List CircuitData) (db : DB) (n : Nat) (db1 : DB),
      import_circuits l db = .ok (n, db1) →
      import_circuits l db1 = .ok (0, db1)) ∧
    (∀ (l : List DriverData) (db : DB) (n : Nat) (db1 : DB),
      import_drivers l db = .ok (n, db1) →
      import_drivers l db1 = .ok (0, db1)) ∧
    (∀ (l : List ConstructorData) (db : DB) (n : Nat) (db1 : DB),
      import_teams l db = .ok (n, db1) →
      import_teams l db1 = .ok (0, db1)) ∧
    (∀ (up : Upstream) (y : Int) (db : DB) (n : Nat) (db1 : DB),
      import_rounds_for_season up y db = .ok (n, db1) →
      import_rounds_for_season up y db1 = .ok (0, db1)) :=
  ⟨fun _ _ _ _ _ _ h => import_seasons_idem h,
   fun _ _ _ _ h => import_circuits_idem h,
   fun _ _ _ _ h => import_drivers_idem h,
   fun _ _ _ _ h => import_teams_idem h,
   fun _ _ _ _ _ h => import_rounds_idem h⟩

/-- Witness for C1: importing the single season `"2021"` into an empty store
creates it; the immediate re-run creates nothing and leaves the store as it
was. -/
theorem claim_c1_witness :
    import_seasons [⟨"2021", none⟩] 1950 2024 emptyDB = .ok (1, c1db) ∧
    import_seasons [⟨"2021", none⟩] 1950 2024 c1db = .ok (0, c1db) :=
  ⟨by decide,
   claim_c1_natural_key_idempotent.1 [⟨"2021", none⟩] 1950 2024 emptyDB 1 c1db
     (by decide)⟩

/-- Claim C6: no import routine ever mutates or deletes an existing persisted
row — after any import routine completes, every table of the store is its old
content with zero or more rows appended (additive-only). -/
theorem claim_c6_additive_only :
    (∀ (l : List SeasonData) (s e : Int) (db : DB) (n : Nat) (db1 : DB),
      import_seasons l s e db = .ok (n, db1) → DBle db db1) ∧
    (∀ (l : List CircuitData) (db : DB) (n : Nat) (db1 : DB),
      import_circuits l db = .ok (n, db1) → DBle db db1) ∧
    (∀ (l : List DriverData) (db : DB) (n : Nat) (db1 : DB),
      import_drivers l db = .ok (n, db1) → DBle db db1) ∧
    (∀ (l : List ConstructorData) (db : DB) (n : Nat) (db1 : DB),
      import_teams l db = .ok (n, db1) → DBle db db1) ∧
    (∀ (up : Upstream) (y : Int) (db : DB) (n : Nat) (db1 : DB),
      import_rounds_for_season up y db = .ok (n, db1) → DBle db db1) ∧
    (∀ (up : Upstream) (y r : Int) (rid : Nat) (db : DB) (n : Nat) (db1 : DB),
      import_sessions_for_round up y r rid db = .ok (n, db1) → DBle db db1) ∧
    (∀ (up : Upstream) (y : Int) (db : DB),
      DBle db (import_team_drivers_for_season up y db).2) ∧
    (∀ (ul : UpstreamLists) (up : Upstream) (s e : Int) (db : DB)
      (cnt : ImportCounts) (db1 : DB),
      import_all_f1_data ul up s e db = .ok (cnt, db1) → DBle db db1) :=
  ⟨fun l s e db n db1 h => seasonsLoop_DBle s e l db n db1 h,
   fun l db n db1 h => circuitsLoop_DBle l db n db1 h,
   fun l db n db1 h => driversLoop_DBle l db n db1 h,
   fun l db n db1 h => teamsLoop_DBle l db n db1 h,
   fun _ _ _ _ _ h => import_rounds_DBle h,
   fun _ _ _ _ _ _ _ h => import_sessions_DBle h,
   fun up y db => import_team_drivers_DBle up y db,
   fun _ _ _ _ _ _ _ h => import_all_DBle h⟩

/-- Witness for C6: the concrete season-import run of the C1 witness only
appends to the store. -/
theorem claim_c6_witness : DBle emptyDB c1db :=
  claim_c6_additive_only.1 [⟨"2021", none⟩] 1950 2024 emptyDB 1 c1db (by decide)

/-- Claim C7: when no Season row exists for the requested year,
`import_rounds_for_season` returns 0 and leaves the store untouched (no
Round, no Circuit, no Session is created); the missing-season condition never
raises. -/
theorem claim_c7_missing_season_noop :
    ∀ (up : Upstream) (y : Int) (db : DB),
      get_season_by_year db y = none →
      import_rounds_for_season up y db = .ok (0, db) := by
  intro up y db h
  simp only [import_rounds_for_season, h]

/-- Witness for C7: round import for 1899 against an empty store. -/
theorem claim_c7_witness :
    import_rounds_for_season emptyUpstream 1899 emptyDB = .ok (0, emptyDB) :=
  claim_c7_missing_season_noop emptyUpstream 1899 emptyDB (by decide)

/-- Upstream fixture of the eight seasons 2015 through 2022. -/
def fixtureSeasons : List SeasonData :=
  [⟨"2015", none⟩, ⟨"2016", none⟩, ⟨"2017", none⟩, ⟨"2018", none⟩,
   ⟨"2019", none⟩, ⟨"2020", none⟩, ⟨"2021", none⟩, ⟨"2022", none⟩]

/-- The store after `import_seasons fixtureSeasons 2018 2020` on an empty
store. -/
def c9db : DB :=
  { emptyDB with
    seasons := [⟨0, 2018, none⟩, ⟨1, 2019, none⟩, ⟨2, 2020, none⟩]
    nextSeasonId := 3 }

/-- Claim C9: `import_seasons(start, end)` creates a Season exactly for each
upstream season whose year parses, lies in the inclusive range and is not
already present; concretely, importing 2018–2020 against the 2015–2022
fixture creates exactly the three Seasons 2018, 2019, 2020. -/
theorem claim_c9_range_filtering :
    (∀ (l : List SeasonData) (s e : Int) (db : DB) (n : Nat) (db1 : DB),
      import_seasons l s e db = .ok (n, db1) →
      ∀ y : Int, (get_season_by_year db1 y).isSome = true ↔
        ((get_season_by_year db y).isSome = true ∨
         ∃ sd ∈ l, pyInt sd.season = .ok y ∧ s ≤ y ∧ y ≤ e)) ∧
    (import_seasons fixtureSeasons 2018 2020 emptyDB = .ok (3, c9db) ∧
     c9db.seasons.map SeasonRow.year = [2018, 2019, 2020]) :=
  ⟨fun l s e db n db1 h => seasonsLoop_years s e l db n db1 h,
   by decide, by decide⟩

/-- Witness for C9: instantiating the range characterization at the concrete
fixture run and year 2019. -/
theorem claim_c9_witness :
    (get_season_by_year c9db 2019).isSome = true ↔
      ((get_season_by_year emptyDB 2019).isSome = true ∨
       ∃ sd ∈ fixtureSeasons,
         pyInt sd.season = .ok 2019 ∧ (2018 : Int) ≤ 2019 ∧ (2019 : Int) ≤ 2020) :=
  claim_c9_range_filtering.1 fixtureSeasons 2018 2020 emptyDB 3 c9db
    (by decide) 2019

/-- Claim C10: every Session row created by `import_sessions_for_round` —
race, qualifying, sprint or practice, over any input — carries the constant
status string "completed". -/
theorem claim_c10_status_completed :
    ∀ (up : Upstream) (y r : Int) (rid : Nat) (db : DB) (n : Nat) (db1 : DB),
      import_sessions_for_round up y r rid db = .ok (n, db1) →
      ∃ new, db1.sessions = db.sessions ++ new ∧
        ∀ srow ∈ new, srow.status = "completed" := by
  intro up y r rid db n db1 h
  rw [import_sessions_for_round_eq] at h
  split at h
  · simp at h
  · cases h
    exact ⟨[], by simp, by simp⟩
  · rename_i ri _
    cases h
    exact ⟨newSessionsFor up y r rid ri, rfl, newSessionsFor_status up y r rid ri⟩

/-- Witness for C10: the concrete session import of `sampleRace`. -/
theorem claim_c10_witness :
    ∃ new, sampleDB1.sessions = emptyDB.sessions ++ new ∧
      ∀ srow ∈ new, srow.status = "completed" :=
  claim_c10_status_completed sampleUpstream 2021 1 7 emptyDB 5 sampleDB1
    (by decide)

/-- Counterexample to C2 as stated: an invocation of
`import_sessions_for_round` whose fetched race list has no entry for the
round (here: an empty race list) creates no Session at all — in particular
not exactly one race-type Session. -/
theorem claim_c2_counterexample :
    import_sessions_for_round emptyUpstream 2021 1 1 emptyDB = .ok (0, emptyDB) ∧
    (emptyDB.sessions.filter (fun srow => srow.session_type == "race")).length
      = 0 :=
  ⟨by decide, by decide⟩

/-- Claim C2 (amended): whenever the linear scan of the fetched race list
finds an entry for the round, the routine creates exactly one race-type
Session among the rows it inserts (all attached to the given round); when no
entry matches, it returns 0 and creates nothing. -/
theorem claim_c2_amended_one_race_session :
    (∀ (up : Upstream) (y r : Int) (rid : Nat) (db : DB) (ri : RaceData),
      findRace (up.races y) r = .ok (some ri) →
      ∃ new, import_sessions_for_round up y r rid db =
          .ok (new.length, { db with sessions := db.sessions ++ new }) ∧
        (new.filter (fun srow => srow.session_type == "race")).length = 1 ∧
        ∀ srow ∈ new, srow.round_id = rid) ∧
    (∀ (up : Upstream) (y r : Int) (rid : Nat) (db : DB),
      findRace (up.races y) r = .ok none →
      import_sessions_for_round up y r rid db = .ok (0, db)) := by
  constructor
  · intro up y r rid db ri h
    refine ⟨newSessionsFor up y r rid ri, ?_,
      newSessionsFor_race_count up y r rid ri,
      newSessionsFor_round_id up y r rid ri⟩
    simp only [import_sessions_for_round_eq, h]
  · intro up y r rid db h
    simp only [import_sessions_for_round_eq, h]

/-- Witness for the amended C2: the concrete session import of `sampleRace`
creates exactly one race-type Session. -/
theorem claim_c2_witness :
    ∃ new, import_sessions_for_round sampleUpstream 2021 1 7 emptyDB =
        .ok (new.length, { emptyDB with sessions := emptyDB.sessions ++ new }) ∧
      (new.filter (fun srow => srow.session_type == "race")).length = 1 ∧
      ∀ srow ∈ new, srow.round_id = 7 :=
  claim_c2_amended_one_race_session.1 sampleUpstream 2021 1 7 emptyDB
    sampleRace (by decide)

/-- Claim C3: for a matched round of a season from 2000 on whose sprint fetch
is empty and whose payload has a `ThirdPractice` key, session import creates
exactly 5 sessions — race, qualifying (its fetch being non-empty), practice
1, 2 and 3; for a season before 2000, no practice session is ever created,
whatever the payload contains. -/
theorem claim_c3_era_conditional_sessions :
    (∀ (up : Upstream) (y r : Int) (rid : Nat) (db : DB) (ri : RaceData),
      findRace (up.races y) r = .ok (some ri) →
      y ≥ 2000 →
      up.sprint_results y r = [] →
      ri.thirdPractice.isSome = true →
      (up.qualifying_results y r).isEmpty = false →
      import_sessions_for_round up y r rid db =
        .ok (5, { db with sessions := db.sessions ++
          [raceSession ri rid, qualiSession ri rid, practice1Session ri rid,
           practice2Session ri rid, practice3Session ri rid] })) ∧
    (∀ (up : Upstream) (y r : Int) (rid : Nat) (db : DB) (n : Nat) (db1 : DB),
      y < 2000 →
      import_sessions_for_round up y r rid db = .ok (n, db1) →
      ∃ new, db1.sessions = db.sessions ++ new ∧
        ∀ srow ∈ new, srow.session_type ≠ "practice1" ∧
          srow.session_type ≠ "practice2" ∧
          srow.session_type ≠ "practice3") := by
  constructor
  · intro up y r rid db ri hfind hy hsprint htp hquali
    simp only [import_sessions_for_round_eq, hfind,
      newSessionsFor_c3_shape up y r rid ri hy hsprint htp hquali]
    rfl
  · intro up y r rid db n db1 hy h
    rw [import_sessions_for_round_eq] at h
    split at h
    · simp at h
    · cases h
      exact ⟨[], by simp, by simp⟩
    · rename_i ri _
      cases h
      refine ⟨newSessionsFor up y r rid ri, rfl, ?_⟩
      intro srow hs
      rcases newSessionsFor_pre2000 up y r rid ri hy srow hs with h1 | h1 | h1 <;>
        rw [h1] <;> exact ⟨by decide, by decide, by decide⟩

/-- Witness for C3: the concrete session import of `sampleRace` (year 2021,
no sprint data, `ThirdPractice` present, qualifying results non-empty)
creates exactly the five expected sessions. -/
theorem claim_c3_witness :
    import_sessions_for_round sampleUpstream 2021 1 7 emptyDB =
      .ok (5, { emptyDB with sessions := emptyDB.sessions ++
        [raceSession sampleRace 7, qualiSession sampleRace 7,
         practice1Session sampleRace 7, practice2Session sampleRace 7,
         practice3Session sampleRace 7] }) :=
  claim_c3_era_conditional_sessions.1 sampleUpstream 2021 1 7 emptyDB
    sampleRace (by decide) (by decide) rfl (by decide) (by decide)

/-- Number of Session rows attached to a round. -/
def sessionCountFor (db : DB) (rid : Nat) : Nat :=
  (db.sessions.filter (fun srow => srow.round_id == rid)).length

/-- Claim C5: session import is not idempotent — for a round with no sessions
yet, importing its sessions once and then again over the same upstream data
leaves the round with twice the number of Session rows it held after the
first run. -/
theorem claim_c5_session_reimport_duplicates :
    ∀ (up : Upstream) (y r : Int) (rid : Nat) (db0 : DB) (n1 : Nat) (db1 : DB)
      (n2 : Nat) (db2 : DB),
      sessionCountFor db0 rid = 0 →
      import_sessions_for_round up y r rid db0 = .ok (n1, db1) →
      import_sessions_for_round up y r rid db1 = .ok (n2, db2) →
      sessionCountFor db2 rid = 2 * sessionCountFor db1 rid := by
  intro up y r rid db0 n1 db1 n2 db2 h0 h1 h2
  rw [import_sessions_for_round_eq] at h1 h2
  cases hf : findRace (up.races y) r with
  | error e =>
    rw [hf] at h1
    simp at h1
  | ok o =>
    rw [hf] at h1 h2
    cases o with
    | none =>
      cases h1
      cases h2
      simp [h0]
    | some ri =>
      cases h1
      cases h2
      simp only [sessionCountFor] at h0 ⊢
      simp [List.filter_append, h0]
      omega

/-- Witness for C5: importing the sessions of `sampleRace` twice into an
empty store leaves the round with 10 = 2 × 5 sessions. -/
theorem claim_c5_witness :
    sessionCountFor sampleDB2 7 = 2 * sessionCountFor sampleDB1 7 :=
  claim_c5_session_reimport_duplicates sampleUpstream 2021 1 7 emptyDB
    5 sampleDB1 5 sampleDB2 (by decide) (by decide) (by decide)

/-- A driver record whose permanent number is present but not a number. -/
def badDriver : DriverData :=
  { driverId := "d1", givenName := "Alpha", familyName := "Beta", code := none
    nationality := none, permanentNumber := some "X", dateOfBirth := none
    url := none }

/-- A circuit record whose latitude is present but not a number. -/
def badCircuit : CircuitData :=
  { circuitId := "cx", circuitName := "Bad Circuit"
    location := some
      { locality := none, country := none, lat := some "not-a-number"
        long := none }
    url := none }

/-- A driver record with no permanent number at all. -/
def plainDriver : DriverData :=
  { driverId := "d0", givenName := "Plain", familyName := "Driver", code := none
    nationality := none, permanentNumber := none, dateOfBirth := none
    url := none }

/-- Counterexample to C4 as stated: a present-but-unparseable numeric field
does not degrade to an absent value — the coercion raises and the exception
propagates out of the routine (shown for a driver permanent number and a
circuit latitude). -/
theorem claim_c4_counterexample :
    import_drivers [badDriver] emptyDB =
      .error ("invalid literal for int with base 10: X") ∧
    import_circuits [badCircuit] emptyDB =
      .error ("could not convert string to float: not-a-number") :=
  ⟨by decide, by decide⟩

/-- Claim C4 (amended): an absent numeric field (or, for circuit coordinates,
an empty string) is stored as an absent value without raising; a present,
non-empty, unparseable numeric field makes the coercion raise and the
exception propagate out of the import routine (dates, by contrast, always
degrade to absent). -/
theorem claim_c4_amended_numeric_coercion :
    (∀ (dd : DriverData) (db : DB),
      get_driver_by_reference db dd.driverId = none →
      dd.permanentNumber = none →
      ∃ row db1, import_drivers [dd] db = .ok (1, db1) ∧
        db1.drivers = db.drivers ++ [row] ∧
        row.permanent_car_number = none) ∧
    (∀ (dd : DriverData) (db : DB) (s : String),
      get_driver_by_reference db dd.driverId = none →
      dd.permanentNumber = some s →
      pyIntCore (pyTrim s.toList) = none →
      import_drivers [dd] db =
        .error ("invalid literal for int with base 10: " ++ s)) ∧
    (∀ (cd : CircuitData) (db : DB),
      get_circuit_by_reference db cd.circuitId = none →
      ((cd.location >>= Location.lat) = none ∨
        (cd.location >>= Location.lat) = some "") →
      ((cd.location >>= Location.long) = none ∨
        (cd.location >>= Location.long) = some "") →
      ∃ row db1, import_circuits [cd] db = .ok (1, db1) ∧
        db1.circuits = db.circuits ++ [row] ∧
        row.latitude = none ∧ row.longitude = none) ∧
    (∀ (cd : CircuitData) (db : DB) (s : String),
      get_circuit_by_reference db cd.circuitId = none →
      (cd.location >>= Location.lat) = some s →
      s ≠ "" →
      isFloatLit s = false →
      import_circuits [cd] db =
        .error ("could not convert string to float: " ++ s)) := by
  refine ⟨?_, ?_, ?_, ?_⟩
  · intro dd db hex hnum
    have hrun : import_drivers [dd] db = .ok (1, (create_driver db
        { reference := dd.driverId, forename := dd.givenName
          surname := dd.familyName, abbreviation := dd.code
          nationality := dd.nationality, country_code := none
          permanent_car_number := none
          date_of_birth := parse_date dd.dateOfBirth
          wikipedia := dd.url }).2) := by
      simp only [import_drivers, driversLoop, hex, hnum, coercePermanentNumber]
    exact ⟨_, _, hrun, rfl, rfl⟩
  · intro dd db s hex hnum hbad
    simp only [import_drivers, driversLoop, hex, hnum, coercePermanentNumber,
      pyInt, hbad]
  · intro cd db hex hlat hlong
    have hl : coerceOptFloat (cd.location >>= Location.lat) = .ok none := by
      rcases hlat with h | h <;> rw [h] <;> rfl
    have hlo : coerceOptFloat (cd.location >>= Location.long) = .ok none := by
      rcases hlong with h | h <;> rw [h] <;> rfl
    have hrun : import_circuits [cd] db = .ok (1, (create_circuit db
        { reference := cd.circuitId, name := cd.circuitName
          locality := cd.location >>= Location.locality
          country := cd.location >>= Location.country
          country_code := none, latitude := none, longitude := none
          altitude := none, wikipedia := cd.url }).2) := by
      simp only [import_circuits, circuitsLoop, hex, hl, hlo]
    exact ⟨_, _, hrun, rfl, rfl, rfl⟩
  · intro cd db s hex hlat hne hbad
    have hl : coerceOptFloat (cd.location >>= Location.lat) =
        .error ("could not convert string to float: " ++ s) := by
      rw [hlat]
      simp [coerceOptFloat, hne, hbad]
    simp only [import_circuits, circuitsLoop, hex, hl]

/-- Witness for the amended C4: importing a driver with no permanent number
stores an absent permanent car number. -/
theorem claim_c4_witness :
    ∃ row db1, import_drivers [plainDriver] emptyDB = .ok (1, db1) ∧
      db1.drivers = emptyDB.drivers ++ [row] ∧
      row.permanent_car_number = none :=
  claim_c4_amended_numeric_coercion.1 plainDriver emptyDB (by decide) (by decide)

/-- Claim C8: when round import processes a race whose embedded circuit
reference has no local Circuit row, it creates exactly one new Circuit built
from the embedded payload of the race in addition to the one new Round, and
the circuit foreign key of the Round is the surrogate id of that Circuit
(shown for a
single-race fetch; the season row must exist and the coercions succeed). -/
theorem claim_c8_inline_circuit_creation :
    ∀ (up : Upstream) (y : Int) (db : DB) (rd : RaceData) (se : SeasonRow)
      (la lo : Option PyFloat) (rn : Int),
      get_season_by_year db y = some se →
      up.races y = [rd] →
      get_circuit_by_reference db rd.circuit.circuitId = none →
      get_round_by_reference db (toString y ++ "-" ++ rd.round) = none →
      coerceOptFloat (rd.circuit.location >>= Location.lat) = .ok la →
      coerceOptFloat (rd.circuit.location >>= Location.long) = .ok lo →
      pyInt rd.round = .ok rn →
      ∃ (c : CircuitRow) (r : RoundRow) (db1 : DB),
        import_rounds_for_season up y db = .ok (1, db1) ∧
        db1.circuits = db.circuits ++ [c] ∧
        c.reference = rd.circuit.circuitId ∧
        db1.rounds = db.rounds ++ [r] ∧
        r.reference = toString y ++ "-" ++ rd.round ∧
        r.circuit_id = c.id ∧ r.season_id = se.id := by
  intro up y db rd se la lo rn hs hr hc hro hla hlo hrn
  have hfind : findRace (up.races y) rn = .ok (some rd) := by
    rw [hr]
    simp [findRace, hrn]
  refine
    ⟨{ id := db.nextCircuitId, reference := rd.circuit.circuitId
       name := rd.circuit.circuitName
       locality := rd.circuit.location >>= Location.locality
       country := rd.circuit.location >>= Location.country
       country_code := none, latitude := la, longitude := lo, altitude := none
       wikipedia := rd.circuit.url },
     { id := db.nextRoundId, reference := toString y ++ "-" ++ rd.round
       name := rd.raceName, round_number := rn, date := parse_date rd.date
       time := rd.time, wikipedia := rd.url, season_id := se.id
       circuit_id := db.nextCircuitId },
     { db with
       circuits := db.circuits ++
         [{ id := db.nextCircuitId, reference := rd.circuit.circuitId
            name := rd.circuit.circuitName
            locality := rd.circuit.location >>= Location.locality
            country := rd.circuit.location >>= Location.country
            country_code := none, latitude := la, longitude := lo
            altitude := none, wikipedia := rd.circuit.url }]
       nextCircuitId := db.nextCircuitId + 1
       rounds := db.rounds ++
         [{ id := db.nextRoundId, reference := toString y ++ "-" ++ rd.round
            name := rd.raceName, round_number := rn, date := parse_date rd.date
            time := rd.time, wikipedia := rd.url, season_id := se.id
            circuit_id := db.nextCircuitId }]
       nextRoundId := db.nextRoundId + 1
       sessions := db.sessions ++ newSessionsFor up y rn db.nextRoundId rd },
     ?_, rfl, rfl, rfl, rfl, rfl, rfl⟩
  simp only [import_rounds_for_season, hs, hr, roundsLoop, processRace,
    getOrCreateCircuit, hc, hla, hlo, create_circuit]
  rw [show get_round_by_reference
      { db with
        circuits := db.circuits ++
          [{ id := db.nextCircuitId, reference := rd.circuit.circuitId
             name := rd.circuit.circuitName
             locality := rd.circuit.location >>= Location.locality
             country := rd.circuit.location >>= Location.country
             country_code := none
             latitude := la, longitude := lo, altitude := none
             wikipedia := rd.circuit.url }]
        nextCircuitId := db.nextCircuitId + 1 }
      (toString y ++ "-" ++ rd.round) = none from hro]
  simp only [hrn, create_round, import_sessions_for_round_eq, hfind]

/-- Witness for C8: importing the 2021 rounds of `sampleUpstream` into a
store that has the 2021 Season but no Circuit creates one Circuit and one
Round whose foreign key points at it. -/
theorem claim_c8_witness :
    ∃ (c : CircuitRow) (r : RoundRow) (db1 : DB),
      import_rounds_for_season sampleUpstream 2021 c1db = .ok (1, db1) ∧
      db1.circuits = c1db.circuits ++ [c] ∧
      c.reference = sampleRace.circuit.circuitId ∧
      db1.rounds = c1db.rounds ++ [r] ∧
      r.reference = toString (2021 : Int) ++ "-" ++ sampleRace.round ∧
      r.circuit_id = c.id ∧ r.season_id = 0 :=
  claim_c8_inline_circuit_creation sampleUpstream 2021 c1db sampleRace
    ⟨0, 2021, none⟩ (some ⟨"4.5"⟩) (some ⟨"9.1"⟩) 1
    (by decide) rfl (by decide) (by decide) (by decide) (by decide) (by decide)

end F1Import
